import Mathlib

/-!
Shallow embedding of the hotel reservation system in src/trabalhooficial.py.

Monetary values and rates (Python floats used as decimal currency amounts)
are modelled as rationals; stay lengths and room numbers are integers.
Python exceptions raised by UnidadeHospedagem.iniciar_reserva are modelled
with Except; the try/except handlers inside
SistemaDeGerenciamentoDeHospedagem.registrar_reserva are modelled by
splitting that method into the try-block body
(registrar_reserva_core, in which the errors of iniciar_reserva still
propagate) and the full method (registrar_reserva, which pattern-matches
on the body and converts every error into a reported outcome).
Mutation of the ledger is modelled by explicit state passing: each mutating
operation returns the new SistemaDeGerenciamentoDeHospedagem value.
-/

/-- The two exception classes QuartoNaoAssociadoError and DiasInvalidosError. -/
inductive ReservaError where
  | quartoNaoAssociado
  | diasInvalidos
deriving DecidableEq, Repr

/-- Class QuartoStandard: the "Standard" fare.  The inherited fields
nome (always "Standard"), tarifa_diaria_base and taxa_servico_base of
TipoDeQuarto are flattened into the structure, plus the extra field
taxa_limpeza_adicional. -/
structure QuartoStandard where
  tarifa_diaria_base : ℚ
  taxa_servico_base : ℚ
  taxa_limpeza_adicional : ℚ
deriving DecidableEq, Repr

/-- Class SuiteMaster: the "Luxo" fare, with the extra field
desconto_fidelidade. -/
structure SuiteMaster where
  tarifa_diaria_base : ℚ
  taxa_servico_base : ℚ
  desconto_fidelidade : ℚ
deriving DecidableEq, Repr

/-- QuartoStandard.calcular_valor_reserva, line for line from the source. -/
def QuartoStandard.calcular_valor_reserva (q : QuartoStandard)
    (dias : ℤ) (consumo_minibar taxa_ocupacao : ℚ) : ℚ :=
  let valor_base := (q.tarifa_diaria_base * (dias : ℚ)) * taxa_ocupacao
  let valor_com_minibar := valor_base + consumo_minibar
  let valor_com_taxa := valor_com_minibar * (1 + q.taxa_servico_base)
  if dias > 5 then
    valor_com_taxa + q.taxa_limpeza_adicional
  else
    valor_com_taxa

/-- SuiteMaster.calcular_valor_reserva, line for line from the source. -/
def SuiteMaster.calcular_valor_reserva (q : SuiteMaster)
    (dias : ℤ) (consumo_minibar taxa_ocupacao : ℚ) : ℚ :=
  let valor_base := (q.tarifa_diaria_base * (dias : ℚ)) * taxa_ocupacao
  let acrescimo_20 := valor_base * 0.20
  let valor_com_acrescimo := valor_base + acrescimo_20
  let valor_com_minibar := valor_com_acrescimo + consumo_minibar
  let valor_com_taxa := valor_com_minibar * (1 + q.taxa_servico_base)
  if dias > 3 then
    valor_com_taxa - q.desconto_fidelidade
  else
    valor_com_taxa

/-- The abstract class TipoDeQuarto, as the closed sum of its two
concrete subclasses. -/
inductive TipoDeQuarto where
  | standard (q : QuartoStandard)
  | suiteMaster (q : SuiteMaster)
deriving DecidableEq, Repr

/-- Dynamic dispatch of calcular_valor_reserva over the two subclasses. -/
def TipoDeQuarto.calcular_valor_reserva :
    TipoDeQuarto → ℤ → ℚ → ℚ → ℚ
  | .standard q, dias, consumo_minibar, taxa_ocupacao =>
      q.calcular_valor_reserva dias consumo_minibar taxa_ocupacao
  | .suiteMaster q, dias, consumo_minibar, taxa_ocupacao =>
      q.calcular_valor_reserva dias consumo_minibar taxa_ocupacao

/-- Class UnidadeHospedagem. -/
structure UnidadeHospedagem where
  numero_quarto : ℤ
  localizacao : String
  tipo_quarto_associado : Option TipoDeQuarto
deriving DecidableEq, Repr

/-- UnidadeHospedagem.associar_tipo_quarto: replaces the association
unconditionally (state-passing rendering of the field assignment). -/
def UnidadeHospedagem.associar_tipo_quarto
    (u : UnidadeHospedagem) (tipo : TipoDeQuarto) : UnidadeHospedagem :=
  { u with tipo_quarto_associado := some tipo }

/-- UnidadeHospedagem.iniciar_reserva: checks the association first,
then the number of days, otherwise delegates to the associated fare. -/
def UnidadeHospedagem.iniciar_reserva (u : UnidadeHospedagem)
    (dias : ℤ) (consumo_minibar taxa_ocupacao : ℚ) : Except ReservaError ℚ :=
  match u.tipo_quarto_associado with
  | none => .error .quartoNaoAssociado
  | some tipo =>
      if dias ≤ 0 then .error .diasInvalidos
      else .ok (tipo.calcular_valor_reserva dias consumo_minibar taxa_ocupacao)

/-- Class Reserva: the record stored in the ledger history. -/
structure Reserva where
  unidade_reservada : UnidadeHospedagem
  dias : ℤ
  consumo_minibar : ℚ
  taxa_ocupacao : ℚ
  valor_total_reserva : ℚ
deriving DecidableEq, Repr

/-- Property Reserva.valor_total. -/
def Reserva.valor_total (r : Reserva) : ℚ := r.valor_total_reserva

/-- Class SistemaDeGerenciamentoDeHospedagem: the ledger, holding the
registered units and the append-only reservation history. -/
structure SistemaDeGerenciamentoDeHospedagem where
  quartos : List UnidadeHospedagem
  historico_reservas : List Reserva
deriving DecidableEq, Repr

/-- The constructor: both lists start empty. -/
def SistemaDeGerenciamentoDeHospedagem.init :
    SistemaDeGerenciamentoDeHospedagem := ⟨[], []⟩

/-- SistemaDeGerenciamentoDeHospedagem.adicionar_quarto: appends to the
units list, preserving registration order. -/
def SistemaDeGerenciamentoDeHospedagem.adicionar_quarto
    (s : SistemaDeGerenciamentoDeHospedagem) (quarto : UnidadeHospedagem) :
    SistemaDeGerenciamentoDeHospedagem :=
  { s with quartos := s.quartos ++ [quarto] }

/-- The possible outcomes of registrar_reserva, which in the source are
reported by printing: success with the new reservation, room not found,
or a caught validation error. -/
inductive RegistroOutcome where
  | sucesso (r : Reserva)
  | quartoNaoEncontrado
  | falha (e : ReservaError)
deriving DecidableEq, Repr

/-- Whether an outcome is the success outcome. -/
def RegistroOutcome.eh_sucesso : RegistroOutcome → Bool
  | .sucesso _ => true
  | _ => false

/-- The room lookup in registrar_reserva:
next((q for q in self._quartos if q.numero_quarto == numero_quarto), None),
i.e. the first unit in registration order with the requested number. -/
def SistemaDeGerenciamentoDeHospedagem.quarto_selecionado
    (s : SistemaDeGerenciamentoDeHospedagem) (numero_quarto : ℤ) :
    Option UnidadeHospedagem :=
  s.quartos.find? (fun q => q.numero_quarto == numero_quarto)

/-- The body of registrar_reserva before exception handling: the lookup,
the early return on a missing room, and the try-block in which the
errors of iniciar_reserva still propagate (hence the Except result). -/
def SistemaDeGerenciamentoDeHospedagem.registrar_reserva_core
    (s : SistemaDeGerenciamentoDeHospedagem)
    (numero_quarto dias : ℤ) (consumo_minibar taxa_ocupacao : ℚ) :
    Except ReservaError (SistemaDeGerenciamentoDeHospedagem × RegistroOutcome) :=
  match s.quarto_selecionado numero_quarto with
  | none => .ok (s, .quartoNaoEncontrado)
  | some quarto =>
      match quarto.iniciar_reserva dias consumo_minibar taxa_ocupacao with
      | .error e => .error e
      | .ok valor_total =>
          let nova_reserva : Reserva :=
            ⟨quarto, dias, consumo_minibar, taxa_ocupacao, valor_total⟩
          .ok ({ s with historico_reservas := s.historico_reservas ++ [nova_reserva] },
               .sucesso nova_reserva)

/-- SistemaDeGerenciamentoDeHospedagem.registrar_reserva: the full method,
with the except handlers that catch every raised error and convert it to
a reported outcome, leaving the ledger unchanged. -/
def SistemaDeGerenciamentoDeHospedagem.registrar_reserva
    (s : SistemaDeGerenciamentoDeHospedagem)
    (numero_quarto dias : ℤ) (consumo_minibar taxa_ocupacao : ℚ) :
    SistemaDeGerenciamentoDeHospedagem × RegistroOutcome :=
  match s.registrar_reserva_core numero_quarto dias consumo_minibar taxa_ocupacao with
  | .ok resultado => resultado
  | .error e => (s, .falha e)

/-- SistemaDeGerenciamentoDeHospedagem.resumo_faturamento_mensal: the
reported pair (count of reservations, total billed). -/
def SistemaDeGerenciamentoDeHospedagem.resumo_faturamento_mensal
    (s : SistemaDeGerenciamentoDeHospedagem) : ℕ × ℚ :=
  (s.historico_reservas.length,
   (s.historico_reservas.map Reserva.valor_total).sum)

/-- The effect, on a stored Reserva, of calling associar_tipo_quarto on the
unit it references: in Python the Reserva holds a reference (alias) to the
mutated UnidadeHospedagem, so its view of the unit changes while every other
stored field is untouched.  This definition renders that aliasing in the
state-passing embedding. -/
def Reserva.com_unidade_reassociada (r : Reserva) (tipo : TipoDeQuarto) : Reserva :=
  { r with unidade_reservada := r.unidade_reservada.associar_tipo_quarto tipo }

/-- Demo fare from the demonstracao function: the Standard type with
tarifa 150, taxa de servico 0.10 and taxa de limpeza 50. -/
def tipoStandardDemo : TipoDeQuarto := .standard ⟨150, 0.10, 50⟩

/-- Demo unit 101 with the Standard fare associated. -/
def quartoDemo : UnidadeHospedagem := ⟨101, "1o andar, vista mar", some tipoStandardDemo⟩

/-- Demo unit 301 with no fare associated, as in the demonstracao function. -/
def quartoSemTipo : UnidadeHospedagem := ⟨301, "3o andar, cobertura", none⟩

/-- A ledger holding only the unassociated unit 301. -/
def sistemaDemo : SistemaDeGerenciamentoDeHospedagem := ⟨[quartoSemTipo], []⟩

/-- A second unit that duplicates room number 101. -/
def quartoDup : UnidadeHospedagem := ⟨101, "1o andar, vista interna", none⟩

/-- A ledger holding two units that share room number 101, the associated
one registered first. -/
def sistemaDup : SistemaDeGerenciamentoDeHospedagem := ⟨[quartoDemo, quartoDup], []⟩

/-- Claim C1: for every number of days greater than zero, non-negative
minibar consumption and any occupancy rate, the Standard fare returns
(tarifa_diaria_base * dias * taxa_ocupacao + consumo_minibar) times
(1 + taxa_servico_base), plus taxa_limpeza_adicional exactly when
dias exceeds 5; with tarifa 150, taxa 0.10 and limpeza 50 it returns
1205 for (7, 0, 1) and 517 for (3, 20, 1). -/
theorem C1_standard_fare_total (q : QuartoStandard) (dias : ℤ)
    (consumo_minibar taxa_ocupacao : ℚ)
    (_hdias : 0 < dias) (_hminibar : 0 ≤ consumo_minibar) :
    q.calcular_valor_reserva dias consumo_minibar taxa_ocupacao =
      (q.tarifa_diaria_base * (dias : ℚ) * taxa_ocupacao + consumo_minibar)
          * (1 + q.taxa_servico_base)
        + (if 5 < dias then q.taxa_limpeza_adicional else 0) ∧
    QuartoStandard.calcular_valor_reserva ⟨150, 0.10, 50⟩ 7 0 1 = 1205 ∧
    QuartoStandard.calcular_valor_reserva ⟨150, 0.10, 50⟩ 3 20 1 = 517 := by
  refine ⟨?_, by norm_num [QuartoStandard.calcular_valor_reserva],
    by norm_num [QuartoStandard.calcular_valor_reserva]⟩
  by_cases h : 5 < dias
  · simp only [QuartoStandard.calcular_valor_reserva, gt_iff_lt, if_pos h]
  · simp only [QuartoStandard.calcular_valor_reserva, gt_iff_lt, if_neg h, add_zero]

/-- Witness for C1 at the fare of the demonstration with a 7 day stay. -/
theorem C1_standard_fare_total_witness :
    (0 : ℤ) < 7 ∧ (0 : ℚ) ≤ 0 ∧
    QuartoStandard.calcular_valor_reserva ⟨150, 0.10, 50⟩ 7 0 1 =
      ((150 : ℚ) * ((7 : ℤ) : ℚ) * 1 + 0) * (1 + 0.10)
        + (if (5 : ℤ) < 7 then (50 : ℚ) else 0) :=
  ⟨by norm_num, le_refl 0,
    (C1_standard_fare_total ⟨150, 0.10, 50⟩ 7 0 1 (by norm_num) (le_refl 0)).1⟩

/-- Claim C2: for every number of days greater than zero, non-negative
minibar consumption and any occupancy rate, the SuiteMaster fare returns
(tarifa_diaria_base * dias * taxa_ocupacao * 1.20 + consumo_minibar)
times (1 + taxa_servico_base), minus desconto_fidelidade exactly when
dias exceeds 3; with tarifa 300, taxa 0.15 and desconto 30 it returns
1626 for (4, 0, 1). -/
theorem C2_master_suite_total (q : SuiteMaster) (dias : ℤ)
    (consumo_minibar taxa_ocupacao : ℚ)
    (_hdias : 0 < dias) (_hminibar : 0 ≤ consumo_minibar) :
    q.calcular_valor_reserva dias consumo_minibar taxa_ocupacao =
      (q.tarifa_diaria_base * (dias : ℚ) * taxa_ocupacao * 1.20 + consumo_minibar)
          * (1 + q.taxa_servico_base)
        - (if 3 < dias then q.desconto_fidelidade else 0) ∧
    SuiteMaster.calcular_valor_reserva ⟨300, 0.15, 30⟩ 4 0 1 = 1626 := by
  refine ⟨?_, by norm_num [SuiteMaster.calcular_valor_reserva]⟩
  by_cases h : 3 < dias
  · simp only [SuiteMaster.calcular_valor_reserva, gt_iff_lt, if_pos h]
    ring
  · simp only [SuiteMaster.calcular_valor_reserva, gt_iff_lt, if_neg h]
    ring

/-- Witness for C2 at the fare of the demonstration with a 4 day stay. -/
theorem C2_master_suite_total_witness :
    (0 : ℤ) < 4 ∧ (0 : ℚ) ≤ 0 ∧
    SuiteMaster.calcular_valor_reserva ⟨300, 0.15, 30⟩ 4 0 1 =
      ((300 : ℚ) * ((4 : ℤ) : ℚ) * 1 * 1.20 + 0) * (1 + 0.15)
        - (if (3 : ℤ) < 4 then (30 : ℚ) else 0) :=
  ⟨by norm_num, le_refl 0,
    (C2_master_suite_total ⟨300, 0.15, 30⟩ 4 0 1 (by norm_num) (le_refl 0)).1⟩

/-- Claim C3: iniciar_reserva fails with the unassociated-unit error when
no fare type is associated, fails with the invalid-days error when a type
is associated and dias is at most 0, and otherwise returns exactly the
value of calcular_valor_reserva of the associated type, unchanged; these
are the only failure modes. -/
theorem C3_iniciar_reserva_spec (u : UnidadeHospedagem) (dias : ℤ)
    (consumo_minibar taxa_ocupacao : ℚ) :
    (u.tipo_quarto_associado = none →
        u.iniciar_reserva dias consumo_minibar taxa_ocupacao =
          .error .quartoNaoAssociado) ∧
    (∀ tipo, u.tipo_quarto_associado = some tipo → dias ≤ 0 →
        u.iniciar_reserva dias consumo_minibar taxa_ocupacao =
          .error .diasInvalidos) ∧
    (∀ tipo, u.tipo_quarto_associado = some tipo → 0 < dias →
        u.iniciar_reserva dias consumo_minibar taxa_ocupacao =
          .ok (tipo.calcular_valor_reserva dias consumo_minibar taxa_ocupacao)) := by
  refine ⟨fun h => ?_, fun tipo h hd => ?_, fun tipo h hd => ?_⟩
  · simp [UnidadeHospedagem.iniciar_reserva, h]
  · simp [UnidadeHospedagem.iniciar_reserva, h, hd]
  · simp [UnidadeHospedagem.iniciar_reserva, h, hd.not_le]

/-- Witness for C3 on the associated demo unit with a valid 3 day stay. -/
theorem C3_iniciar_reserva_spec_witness :
    quartoDemo.tipo_quarto_associado = some tipoStandardDemo ∧ (0 : ℤ) < 3 ∧
    quartoDemo.iniciar_reserva 3 20 1 =
      .ok (tipoStandardDemo.calcular_valor_reserva 3 20 1) :=
  ⟨rfl, by norm_num,
    (C3_iniciar_reserva_spec quartoDemo 3 20 1).2.2 tipoStandardDemo rfl (by norm_num)⟩

/-- Claim C4: whenever registrar_reserva does not produce the success
outcome (room not found, unassociated unit, or non-positive days), the
reservation history of the ledger is exactly what it was before the
call: nothing is appended on any failure. -/
theorem C4_failed_booking_preserves_history
    (s : SistemaDeGerenciamentoDeHospedagem) (numero_quarto dias : ℤ)
    (consumo_minibar taxa_ocupacao : ℚ)
    (h : (s.registrar_reserva numero_quarto dias consumo_minibar
            taxa_ocupacao).2.eh_sucesso = false) :
    (s.registrar_reserva numero_quarto dias consumo_minibar
        taxa_ocupacao).1.historico_reservas = s.historico_reservas := by
  unfold SistemaDeGerenciamentoDeHospedagem.registrar_reserva at h ⊢
  cases hcore : s.registrar_reserva_core numero_quarto dias consumo_minibar taxa_ocupacao with
  | error e => simp [hcore]
  | ok resultado =>
      simp only [hcore] at h ⊢
      unfold SistemaDeGerenciamentoDeHospedagem.registrar_reserva_core at hcore
      cases hfind : s.quarto_selecionado numero_quarto with
      | none =>
          simp only [hfind, Except.ok.injEq] at hcore
          rw [← hcore]
      | some quarto =>
          simp only [hfind] at hcore
          cases hres : quarto.iniciar_reserva dias consumo_minibar taxa_ocupacao with
          | error e => simp [hres] at hcore
          | ok valor =>
              simp only [hres, Except.ok.injEq] at hcore
              rw [← hcore] at h
              simp [RegistroOutcome.eh_sucesso] at h

/-- Witness for C4: booking an unregistered room on the empty ledger
fails and leaves the empty history unchanged. -/
theorem C4_failed_booking_preserves_history_witness :
    ((SistemaDeGerenciamentoDeHospedagem.init.registrar_reserva 101 3 0 1).2.eh_sucesso
        = false) ∧
    (SistemaDeGerenciamentoDeHospedagem.init.registrar_reserva 101 3 0 1).1.historico_reservas
        = SistemaDeGerenciamentoDeHospedagem.init.historico_reservas :=
  ⟨rfl, C4_failed_booking_preserves_history
    SistemaDeGerenciamentoDeHospedagem.init 101 3 0 1 rfl⟩

/-- Claim C5: registrar_reserva is total and never propagates a raised
error to its caller: whatever the try-block body produces, the full
method returns a reported outcome, converting every raised error into
the falha outcome with the ledger unchanged and passing a normal result
through unchanged. -/
theorem C5_booking_never_propagates
    (s : SistemaDeGerenciamentoDeHospedagem) (numero_quarto dias : ℤ)
    (consumo_minibar taxa_ocupacao : ℚ) :
    (∀ e, s.registrar_reserva_core numero_quarto dias consumo_minibar taxa_ocupacao
          = .error e →
        s.registrar_reserva numero_quarto dias consumo_minibar taxa_ocupacao
          = (s, .falha e)) ∧
    (∀ resultado,
        s.registrar_reserva_core numero_quarto dias consumo_minibar taxa_ocupacao
          = .ok resultado →
        s.registrar_reserva numero_quarto dias consumo_minibar taxa_ocupacao
          = resultado) := by
  constructor
  · intro e he
    unfold SistemaDeGerenciamentoDeHospedagem.registrar_reserva
    rw [he]
  · intro resultado hr
    unfold SistemaDeGerenciamentoDeHospedagem.registrar_reserva
    rw [hr]

/-- Witness for C5: booking the unassociated unit 301 raises inside the
try-block and is caught, yielding the falha outcome on the same ledger. -/
theorem C5_booking_never_propagates_witness :
    sistemaDemo.registrar_reserva_core 301 2 10 1 = .error .quartoNaoAssociado ∧
    sistemaDemo.registrar_reserva 301 2 10 1 = (sistemaDemo, .falha .quartoNaoAssociado) :=
  ⟨rfl, (C5_booking_never_propagates sistemaDemo 301 2 10 1).1 .quartoNaoAssociado rfl⟩

/-- Claim C6: resumo_faturamento_mensal reports the length of the history
and the sum of valor_total over the history; the empty ledger reports a
total of zero, and each successful booking increases the count by one and
the total by the valor_total of the new reservation.  The operation is a
pure function of the ledger state, so two calls without intervening
bookings agree. -/
theorem C6_resumo_faturamento
    (s : SistemaDeGerenciamentoDeHospedagem) (numero_quarto dias : ℤ)
    (consumo_minibar taxa_ocupacao : ℚ) :
    (s.resumo_faturamento_mensal.1 = s.historico_reservas.length ∧
     s.resumo_faturamento_mensal.2
        = (s.historico_reservas.map Reserva.valor_total).sum) ∧
    SistemaDeGerenciamentoDeHospedagem.init.resumo_faturamento_mensal.2 = 0 ∧
    (∀ s2 r, s.registrar_reserva numero_quarto dias consumo_minibar taxa_ocupacao
          = (s2, .sucesso r) →
        s2.resumo_faturamento_mensal.1 = s.resumo_faturamento_mensal.1 + 1 ∧
        s2.resumo_faturamento_mensal.2
          = s.resumo_faturamento_mensal.2 + r.valor_total) := by
  refine ⟨⟨rfl, rfl⟩, rfl, ?_⟩
  intro s2 r hreg
  unfold SistemaDeGerenciamentoDeHospedagem.registrar_reserva at hreg
  cases hcore : s.registrar_reserva_core numero_quarto dias consumo_minibar taxa_ocupacao with
  | error e => simp only [hcore] at hreg; simp at hreg
  | ok resultado =>
      simp only [hcore] at hreg
      subst hreg
      unfold SistemaDeGerenciamentoDeHospedagem.registrar_reserva_core at hcore
      cases hfind : s.quarto_selecionado numero_quarto with
      | none => simp only [hfind] at hcore; simp at hcore
      | some quarto =>
          simp only [hfind] at hcore
          cases hres : quarto.iniciar_reserva dias consumo_minibar taxa_ocupacao with
          | error e => simp [hres] at hcore
          | ok valor =>
              simp only [hres, Except.ok.injEq, Prod.mk.injEq] at hcore
              obtain ⟨hs2, hr⟩ := hcore
              rw [RegistroOutcome.sucesso.injEq] at hr
              subst hr
              rw [← hs2]
              simp [SistemaDeGerenciamentoDeHospedagem.resumo_faturamento_mensal,
                Reserva.valor_total]

/-- Witness for C6: a successful booking of the demo unit on the ledger
with two units increments the count and adds the computed total. -/
theorem C6_resumo_faturamento_witness :
    (sistemaDup.registrar_reserva 101 3 20 1
      = ({ sistemaDup with historico_reservas :=
            [⟨quartoDemo, 3, 20, 1, 517⟩] }, .sucesso ⟨quartoDemo, 3, 20, 1, 517⟩)) ∧
    ({ sistemaDup with historico_reservas :=
        [⟨quartoDemo, 3, 20, 1, 517⟩] } :
          SistemaDeGerenciamentoDeHospedagem).resumo_faturamento_mensal.1
      = sistemaDup.resumo_faturamento_mensal.1 + 1 ∧
    ({ sistemaDup with historico_reservas :=
        [⟨quartoDemo, 3, 20, 1, 517⟩] } :
          SistemaDeGerenciamentoDeHospedagem).resumo_faturamento_mensal.2
      = sistemaDup.resumo_faturamento_mensal.2 + (517 : ℚ) :=
  ⟨by norm_num [SistemaDeGerenciamentoDeHospedagem.registrar_reserva,
      SistemaDeGerenciamentoDeHospedagem.registrar_reserva_core,
      SistemaDeGerenciamentoDeHospedagem.quarto_selecionado,
      sistemaDup, quartoDemo, tipoStandardDemo,
      UnidadeHospedagem.iniciar_reserva, TipoDeQuarto.calcular_valor_reserva,
      QuartoStandard.calcular_valor_reserva],
    (C6_resumo_faturamento sistemaDup 101 3 20 1).2.2
      { sistemaDup with historico_reservas := [⟨quartoDemo, 3, 20, 1, 517⟩] }
      ⟨quartoDemo, 3, 20, 1, 517⟩
      (by norm_num [SistemaDeGerenciamentoDeHospedagem.registrar_reserva,
        SistemaDeGerenciamentoDeHospedagem.registrar_reserva_core,
        SistemaDeGerenciamentoDeHospedagem.quarto_selecionado,
        sistemaDup, quartoDemo, tipoStandardDemo,
        UnidadeHospedagem.iniciar_reserva, TipoDeQuarto.calcular_valor_reserva,
        QuartoStandard.calcular_valor_reserva])⟩

/-- Claim C7: registrar_reserva selects the first unit in registration
order whose number equals the requested one: when no unit matches the
outcome is quartoNaoEncontrado with the ledger unchanged; when the units
list splits as l1 ++ q :: l2 with no match in l1 and q matching, the
lookup selects q, the earliest registered match; and on success the
reservation is for exactly the selected unit. -/
theorem C7_first_match_selection
    (s : SistemaDeGerenciamentoDeHospedagem) (numero_quarto dias : ℤ)
    (consumo_minibar taxa_ocupacao : ℚ) :
    ((∀ q ∈ s.quartos, q.numero_quarto ≠ numero_quarto) →
        s.registrar_reserva numero_quarto dias consumo_minibar taxa_ocupacao
          = (s, .quartoNaoEncontrado)) ∧
    (∀ l1 q l2, s.quartos = l1 ++ q :: l2 →
        (∀ p ∈ l1, p.numero_quarto ≠ numero_quarto) →
        q.numero_quarto = numero_quarto →
        s.quarto_selecionado numero_quarto = some q) ∧
    (∀ s2 r, s.registrar_reserva numero_quarto dias consumo_minibar taxa_ocupacao
          = (s2, .sucesso r) →
        s.quarto_selecionado numero_quarto = some r.unidade_reservada) := by
  refine ⟨?_, ?_, ?_⟩
  · intro hall
    have hfind : s.quarto_selecionado numero_quarto = none := by
      unfold SistemaDeGerenciamentoDeHospedagem.quarto_selecionado
      rw [List.find?_eq_none]
      intro x hx
      simpa using hall x hx
    unfold SistemaDeGerenciamentoDeHospedagem.registrar_reserva
      SistemaDeGerenciamentoDeHospedagem.registrar_reserva_core
    simp only [hfind]
  · intro l1 q l2 hsplit hl1 hq
    unfold SistemaDeGerenciamentoDeHospedagem.quarto_selecionado
    rw [hsplit, List.find?_append]
    have h1 : l1.find? (fun p => p.numero_quarto == numero_quarto) = none := by
      rw [List.find?_eq_none]
      intro x hx
      simpa using hl1 x hx
    rw [h1]
    simp [hq]
  · intro s2 r hreg
    unfold SistemaDeGerenciamentoDeHospedagem.registrar_reserva at hreg
    cases hcore : s.registrar_reserva_core numero_quarto dias consumo_minibar taxa_ocupacao with
    | error e => simp only [hcore] at hreg; simp at hreg
    | ok resultado =>
        simp only [hcore] at hreg
        subst hreg
        unfold SistemaDeGerenciamentoDeHospedagem.registrar_reserva_core at hcore
        cases hfind : s.quarto_selecionado numero_quarto with
        | none => simp only [hfind] at hcore; simp at hcore
        | some quarto =>
            simp only [hfind] at hcore
            cases hres : quarto.iniciar_reserva dias consumo_minibar taxa_ocupacao with
            | error e => simp [hres] at hcore
            | ok valor =>
                simp only [hres, Except.ok.injEq, Prod.mk.injEq] at hcore
                obtain ⟨hs2, hr⟩ := hcore
                rw [RegistroOutcome.sucesso.injEq] at hr
                subst hr
                rfl

/-- Witness for C7: on a ledger with two units numbered 101, the lookup
returns the earliest registered one. -/
theorem C7_first_match_selection_witness :
    sistemaDup.quartos = [] ++ quartoDemo :: [quartoDup] ∧
    quartoDemo.numero_quarto = 101 ∧
    sistemaDup.quarto_selecionado 101 = some quartoDemo :=
  ⟨rfl, rfl,
    (C7_first_match_selection sistemaDup 101 1 0 1).2.1 [] quartoDemo [quartoDup]
      rfl (by simp) rfl⟩

/-- Claim C8: with non-negative minibar consumption, occupancy rate, base
rate, service fee and cleaning fee, the Standard fare is monotonically
non-decreasing in the number of days over positive days. -/
theorem C8_standard_monotone_dias (q : QuartoStandard)
    (consumo_minibar taxa_ocupacao : ℚ) (d1 d2 : ℤ)
    (_hminibar : 0 ≤ consumo_minibar) (hocup : 0 ≤ taxa_ocupacao)
    (htarifa : 0 ≤ q.tarifa_diaria_base) (htaxa : 0 ≤ q.taxa_servico_base)
    (hlimpeza : 0 ≤ q.taxa_limpeza_adicional)
    (_h1 : 0 < d1) (h12 : d1 ≤ d2) :
    q.calcular_valor_reserva d1 consumo_minibar taxa_ocupacao ≤
      q.calcular_valor_reserva d2 consumo_minibar taxa_ocupacao := by
  have hc : (d1 : ℚ) ≤ (d2 : ℚ) := by exact_mod_cast h12
  have hd : (0 : ℚ) ≤ q.tarifa_diaria_base * taxa_ocupacao * ((d2 : ℚ) - (d1 : ℚ)) :=
    mul_nonneg (mul_nonneg htarifa hocup) (sub_nonneg.mpr hc)
  have hdf : (0 : ℚ) ≤ q.tarifa_diaria_base * taxa_ocupacao * ((d2 : ℚ) - (d1 : ℚ))
      * q.taxa_servico_base := mul_nonneg hd htaxa
  by_cases h5 : 5 < d1
  · have h5b : 5 < d2 := lt_of_lt_of_le h5 h12
    simp only [QuartoStandard.calcular_valor_reserva, gt_iff_lt, if_pos h5, if_pos h5b]
    nlinarith [hd, hdf]
  · by_cases h5b : 5 < d2
    · simp only [QuartoStandard.calcular_valor_reserva, gt_iff_lt, if_neg h5, if_pos h5b]
      nlinarith [hd, hdf, hlimpeza]
    · simp only [QuartoStandard.calcular_valor_reserva, gt_iff_lt, if_neg h5, if_neg h5b]
      nlinarith [hd, hdf]

/-- Witness for C8 at the demo Standard fare between 3 and 7 days. -/
theorem C8_standard_monotone_dias_witness :
    (0 : ℚ) ≤ 0 ∧ (0 : ℚ) ≤ 1 ∧ (0 : ℚ) ≤ 150 ∧ (0 : ℚ) ≤ 0.10 ∧ (0 : ℚ) ≤ 50 ∧
    (0 : ℤ) < 3 ∧ (3 : ℤ) ≤ 7 ∧
    QuartoStandard.calcular_valor_reserva ⟨150, 0.10, 50⟩ 3 0 1 ≤
      QuartoStandard.calcular_valor_reserva ⟨150, 0.10, 50⟩ 7 0 1 :=
  ⟨le_refl 0, by norm_num, by norm_num, by norm_num, by norm_num, by norm_num, by norm_num,
    C8_standard_monotone_dias ⟨150, 0.10, 50⟩ 0 1 3 7 (le_refl 0) (by norm_num)
      (by norm_num) (by norm_num) (by norm_num) (by norm_num) (by norm_num)⟩

/-- Claim C9: re-associating the fare type of the unit referenced by a
stored Reserva (the aliasing effect of associar_tipo_quarto on the booked
unit) changes the view of the unit but none of the stored booking data:
valor_total_reserva, dias, consumo_minibar and taxa_ocupacao are exactly
as computed and stored at booking time. -/
theorem C9_reassociacao_preserva_reserva (r : Reserva) (tipo : TipoDeQuarto) :
    (r.com_unidade_reassociada tipo).valor_total_reserva = r.valor_total_reserva ∧
    (r.com_unidade_reassociada tipo).dias = r.dias ∧
    (r.com_unidade_reassociada tipo).consumo_minibar = r.consumo_minibar ∧
    (r.com_unidade_reassociada tipo).taxa_ocupacao = r.taxa_ocupacao ∧
    (r.com_unidade_reassociada tipo).unidade_reservada.tipo_quarto_associado = some tipo :=
  ⟨rfl, rfl, rfl, rfl, rfl⟩

/-- Claim C10 (implicit): in iniciar_reserva the unassociated-unit check
precedes the days check: a unit with no associated fare type and
non-positive days raises the unassociated-unit error, and the
invalid-days error can only arise when a fare type is associated. -/
theorem C10_associacao_verificada_antes_dos_dias (u : UnidadeHospedagem)
    (dias : ℤ) (consumo_minibar taxa_ocupacao : ℚ) :
    (u.tipo_quarto_associado = none → dias ≤ 0 →
        u.iniciar_reserva dias consumo_minibar taxa_ocupacao
          = .error .quartoNaoAssociado) ∧
    (u.iniciar_reserva dias consumo_minibar taxa_ocupacao = .error .diasInvalidos →
        ∃ tipo, u.tipo_quarto_associado = some tipo) := by
  constructor
  · intro h _
    simp [UnidadeHospedagem.iniciar_reserva, h]
  · intro h
    cases ht : u.tipo_quarto_associado with
    | none => simp [UnidadeHospedagem.iniciar_reserva, ht] at h
    | some tipo => exact ⟨tipo, rfl⟩

/-- Witness for C10: the unassociated unit 301 with zero days raises the
unassociated-unit error, not the invalid-days error. -/
theorem C10_associacao_verificada_antes_dos_dias_witness :
    quartoSemTipo.tipo_quarto_associado = none ∧ (0 : ℤ) ≤ 0 ∧
    quartoSemTipo.iniciar_reserva 0 10 1 = .error .quartoNaoAssociado :=
  ⟨rfl, le_refl 0,
    (C10_associacao_verificada_antes_dos_dias quartoSemTipo 0 10 1).1 rfl (le_refl 0)⟩
